import Mathlib

/-!
# Aether Grid — session state machine, shallow embedding

Shallow embedding of `src/aether-grid-app/contracts/eather-grid/src/lib.rs`
(the `EatherGridContract` Soroban contract) and proofs about its session
state machine.

Modelling conventions, all taken from the source:
* A byte string (`soroban_sdk::Bytes`) is a `List Nat` of byte values.
* An `Address` is modelled by its string-byte representation (the source
  only ever uses an address for equality comparison and, in `start_game`,
  for `addr.to_string().to_bytes()` when building the keccak seed, so the
  byte list is a faithful stand-in).
* `keccak256` is an arbitrary function parameter `k : Bytes → Bytes`;
  every theorem is quantified over it.
* The external UltraHonk verifier "either succeeds silently or traps" —
  it is a parameter `v : Bytes → Bytes → Bool`; `v proof pi = false`
  models the trap.  A trap aborts the whole transaction (Soroban host
  rollback), so a trapping branch carries the storage state at the moment
  of the trap, which lets us prove no write precedes the trap.
* Contract storage is a map `Nat → Option Game` (session id → record),
  exactly the `DataKey::Game(u32)` temporary-storage entries.  TTL
  extension (`extend_ttl`) and authorization (`require_auth`), which the
  spec scopes out as external collaborators, are not modelled; auth is
  treated as the infallible gate the spec describes.
* Cross-contract calls to the GameHub (`start_game` / `end_game`) are
  recorded in an emitted-call list so "the external report happens only
  on the first call" is a statement about that list.
-/

set_option maxHeartbeats 1000000

namespace AetherGrid

/-- Raw byte strings (`soroban_sdk::Bytes`). -/
abbrev ByteStr := List Nat

/-- Party identity, modelled by its string bytes. -/
abbrev Address := List Nat

/-- The contract's error enum (`Error` in lib.rs). -/
inductive Error where
  | GameNotFound
  | NotPlayer
  | AlreadyVerified
  | NeitherPlayerSubmitted
  | GameAlreadyResolved
  | PublicInputMismatch
deriving DecidableEq

/-- Resolution outcome (`Outcome` in lib.rs). -/
inductive Outcome where
  | Player1Won
  | Player2Won
  | BothWon
  | NeitherWon
deriving DecidableEq

/-- Per-session game state (`Game` in lib.rs). -/
structure Game where
  player1 : Address
  player2 : Address
  player1_points : Int
  player2_points : Int
  target_public_inputs : ByteStr
  player1_verified : Bool
  player2_verified : Bool
  resolved : Bool
deriving DecidableEq

/-- Contract storage: the `DataKey::Game(session_id)` entries. -/
structure ContractState where
  games : Nat → Option Game

/-- Store a game record under a session id (`env.storage().temporary().set`). -/
def ContractState.setGame (s : ContractState) (session_id : Nat) (g : Game) :
    ContractState :=
  ⟨fun k => if k = session_id then some g else s.games k⟩

/-- The contract state with no sessions at all. -/
def emptyState : ContractState := ⟨fun _ => none⟩

/-- A cross-contract call into the GameHub collaborator. -/
inductive HubCall where
  | startGame (session_id : Nat) (player1 player2 : Address)
      (player1_points player2_points : Int)
  | endGame (session_id : Nat) (player1_won : Bool)
deriving DecidableEq

/-- Big-endian 4-byte encoding of a `u32` (`session_id.to_be_bytes()`). -/
def u32_be (n : Nat) : List Nat :=
  [n / 2 ^ 24 % 256, n / 2 ^ 16 % 256, n / 2 ^ 8 % 256, n % 256]

/-- Result of `start_game`: either the new state plus the emitted hub
calls, or a hard abort (the `panic!` on equal parties), carrying the
state and the calls emitted before the abort. -/
inductive StartResult where
  | ok (s : ContractState) (calls : List HubCall)
  | trap (s : ContractState) (calls : List HubCall)

/-- `start_game` from lib.rs.  Panics on equal parties, derives
`target_public_inputs = keccak256(session_id_be ‖ player1 ‖ player2)`,
registers the session with the hub, then persists an all-false record.
The hub registration precedes the local write in the source; both are
reported together in the `ok` result. -/
def start_game (k : ByteStr → ByteStr) (s : ContractState) (session_id : Nat)
    (player1 player2 : Address) (player1_points player2_points : Int) :
    StartResult :=
  if player1 = player2 then
    .trap s []
  else
    let seed : ByteStr := u32_be session_id ++ player1 ++ player2
    let target_public_inputs := k seed
    let game : Game :=
      { player1, player2, player1_points, player2_points,
        target_public_inputs,
        player1_verified := false, player2_verified := false,
        resolved := false }
    .ok (s.setGame session_id game)
      [.startGame session_id player1 player2 player1_points player2_points]

/-- Result of `submit_proof`: success with the new state, a typed error
(carrying the storage state at the moment the error is returned), or a
verifier trap (carrying the storage state at the moment of the trap —
the host then rolls the whole transaction back to the pre-call state). -/
inductive SubmitResult where
  | ok (s : ContractState)
  | err (e : Error) (s : ContractState)
  | trap (s : ContractState)

/-- `submit_proof` from lib.rs.  Check order is exactly the source's:
session lookup, resolved guard, party membership, per-party duplicate
guard, byte-exact public-input comparison, verifier call, then mark the
player and persist. -/
def submit_proof (v : ByteStr → ByteStr → Bool) (s : ContractState)
    (session_id : Nat) (player : Address) (proof public_inputs : ByteStr) :
    SubmitResult :=
  match s.games session_id with
  | none => .err .GameNotFound s
  | some game =>
    if game.resolved = true then .err .GameAlreadyResolved s
    else if player ≠ game.player1 ∧ player ≠ game.player2 then .err .NotPlayer s
    else if player = game.player1 ∧ game.player1_verified = true then
      .err .AlreadyVerified s
    else if player = game.player2 ∧ game.player2_verified = true then
      .err .AlreadyVerified s
    else if public_inputs ≠ game.target_public_inputs then
      .err .PublicInputMismatch s
    else if v proof public_inputs = false then
      .trap s
    else
      let game' :=
        if player = game.player1 then { game with player1_verified := true }
        else { game with player2_verified := true }
      .ok (s.setGame session_id game')

/-- The outcome table of `resolve_game` (the `match` on the two
verification flags in lib.rs). -/
def outcomeOf (player1_verified player2_verified : Bool) : Outcome :=
  match player1_verified, player2_verified with
  | true, false => .Player1Won
  | false, true => .Player2Won
  | true, true => .BothWon
  | false, false => .NeitherWon

/-- `matches!(outcome, Outcome::Player1Won | Outcome::BothWon)`. -/
def player1WonOf (o : Outcome) : Bool :=
  match o with
  | .Player1Won => true
  | .BothWon => true
  | _ => false

/-- Result of `resolve_game`: the outcome, the new state, and the hub
calls emitted, or a typed error carrying the state at the error return. -/
inductive ResolveResult where
  | ok (o : Outcome) (s : ContractState) (calls : List HubCall)
  | err (e : Error) (s : ContractState)

/-- `resolve_game` from lib.rs.  If already resolved it recomputes the
outcome from the stored flags and returns it without touching storage or
the hub; otherwise it requires at least one submission, computes the
outcome, marks the session resolved, persists, and reports
`player1_won` to the hub. -/
def resolve_game (s : ContractState) (session_id : Nat) : ResolveResult :=
  match s.games session_id with
  | none => .err .GameNotFound s
  | some game =>
    if game.resolved = true then
      .ok (outcomeOf game.player1_verified game.player2_verified) s []
    else if game.player1_verified = false ∧ game.player2_verified = false then
      .err .NeitherPlayerSubmitted s
    else
      let outcome := outcomeOf game.player1_verified game.player2_verified
      .ok outcome (s.setGame session_id { game with resolved := true })
        [.endGame session_id (player1WonOf outcome)]

/-- `get_game` from lib.rs (read-only). -/
def get_game (s : ContractState) (session_id : Nat) : Except Error Game :=
  match s.games session_id with
  | none => .error .GameNotFound
  | some g => .ok g

/-- `get_target` from lib.rs (read-only). -/
def get_target (s : ContractState) (session_id : Nat) : Except Error ByteStr :=
  match s.games session_id with
  | none => .error .GameNotFound
  | some g => .ok g.target_public_inputs

/-- One externally triggered operation on the contract. -/
inductive Op where
  | start (session_id : Nat) (player1 player2 : Address)
      (player1_points player2_points : Int)
  | submit (session_id : Nat) (player : Address) (proof public_inputs : ByteStr)
  | resolve (session_id : Nat)
  | getGame (session_id : Nat)
  | getTarget (session_id : Nat)
deriving DecidableEq

/-- Whether an operation is a `start_game` call. -/
def Op.isStart : Op → Bool
  | .start _ _ _ _ _ => true
  | _ => false

/-- The storage state after one operation runs as its own transaction:
an `ok` or typed-error return keeps the state the operation returned
(errors are all raised before any write), and a trap rolls the whole
transaction back to the pre-call state. -/
def applyOp (k : ByteStr → ByteStr) (v : ByteStr → ByteStr → Bool)
    (s : ContractState) : Op → ContractState
  | .start session_id p1 p2 a b =>
    match start_game k s session_id p1 p2 a b with
    | .ok s' _ => s'
    | .trap _ _ => s
  | .submit session_id p proof pi =>
    match submit_proof v s session_id p proof pi with
    | .ok s' => s'
    | .err _ s' => s'
    | .trap _ => s
  | .resolve session_id =>
    match resolve_game s session_id with
    | .ok _ s' _ => s'
    | .err _ s' => s'
  | .getGame _ => s
  | .getTarget _ => s

/-- Run a sequence of operations, each in its own transaction. -/
def runOps (k : ByteStr → ByteStr) (v : ByteStr → ByteStr → Bool)
    (s : ContractState) (ops : List Op) : ContractState :=
  ops.foldl (applyOp k v) s

/-- Per-record invariant: distinct parties, and a resolved record has at
least one verified flag set. -/
def GoodGame (g : Game) : Prop :=
  g.player1 ≠ g.player2 ∧
  (g.resolved = true → g.player1_verified = true ∨ g.player2_verified = true)

/-- Every stored record satisfies `GoodGame`. -/
def GoodState (s : ContractState) : Prop :=
  ∀ j g, s.games j = some g → GoodGame g

/-! Concrete fixtures used to instantiate witnesses. -/

/-- Stand-in hash function for concrete instantiations. -/
def keccak0 : ByteStr → ByteStr := fun _ => List.replicate 32 7

/-- Verifier that accepts every proof. -/
def verAccept : ByteStr → ByteStr → Bool := fun _ _ => true

/-- Verifier that traps on every proof. -/
def verReject : ByteStr → ByteStr → Bool := fun _ _ => false

/-- Concrete first party. -/
def addrA : Address := [65]

/-- Concrete second party. -/
def addrB : Address := [66]

/-- The commitment `keccak0` assigns to every seed. -/
def pi0 : ByteStr := List.replicate 32 7

/-- State holding a single session record under id 0. -/
def stateOf (g : Game) : ContractState :=
  ⟨fun j => if j = 0 then some g else none⟩

/-- Fresh session record between `addrA` and `addrB`. -/
def baseGame : Game :=
  { player1 := addrA, player2 := addrB, player1_points := 10,
    player2_points := 20, target_public_inputs := pi0,
    player1_verified := false, player2_verified := false, resolved := false }

/-- Session in which player 1 has verified. -/
def gP1 : Game := { baseGame with player1_verified := true }

/-- Session resolved with only player 1 verified. -/
def gResolvedP1 : Game := { baseGame with player1_verified := true, resolved := true }

/-- Single unresolved, no-submission session. -/
def sNeither : ContractState := stateOf baseGame

/-- Single session with player 1 verified. -/
def sP1 : ContractState := stateOf gP1

/-- Single resolved session. -/
def sResolvedP1 : ContractState := stateOf gResolvedP1

/-- The record `start_game keccak0 _ 0 addrA addrB 1 2` stores. -/
def gFreshAB : Game :=
  { player1 := addrA, player2 := addrB, player1_points := 1,
    player2_points := 2,
    target_public_inputs := keccak0 (u32_be 0 ++ addrA ++ addrB),
    player1_verified := false, player2_verified := false, resolved := false }

/-- `gFreshAB` after player 1 verifies and the session resolves. -/
def gW7 : Game := { gFreshAB with player1_verified := true, resolved := true }

/-- Operation sequence with no `start` in it. -/
def opsNoStart : List Op :=
  [.resolve 0, .submit 0 addrB [1] pi0, .getTarget 0, .getGame 0]

/-- Start, one submission, resolve. -/
def opsW7 : List Op :=
  [.start 0 addrA addrB 1 2, .submit 0 addrA [1] pi0, .resolve 0]

/-- Start then a successful submission by player 1. -/
def opsW8a : List Op := [.start 0 addrA addrB 1 2, .submit 0 addrA [1] pi0]

/-- Same, followed by a colliding `start` on the same session id. -/
def opsW8b : List Op := opsW8a ++ [.start 0 addrA addrB 1 2]

/-! Helper lemmas about the embedded operations. -/

theorem setGame_games (s : ContractState) (session_id j : Nat) (g : Game) :
    (s.setGame session_id g).games j =
      if j = session_id then some g else s.games j := rfl

theorem emptyState_good : GoodState emptyState := by
  intro j g hg
  simp [emptyState] at hg

/-- Exhaustive case analysis of `submit_proof`: an error return or a trap
leaves storage untouched, and a success stores the same record with
exactly one verified flag newly set. -/
theorem submit_proof_cases (v : ByteStr → ByteStr → Bool) (s : ContractState)
    (session_id : Nat) (player : Address) (proof public_inputs : ByteStr) :
    (∃ e, submit_proof v s session_id player proof public_inputs = .err e s) ∨
    (submit_proof v s session_id player proof public_inputs = .trap s) ∨
    (∃ g, s.games session_id = some g ∧ g.resolved = false ∧
      ((player = g.player1 ∧ g.player1_verified = false ∧
        submit_proof v s session_id player proof public_inputs =
          .ok (s.setGame session_id { g with player1_verified := true })) ∨
       (player ≠ g.player1 ∧ player = g.player2 ∧ g.player2_verified = false ∧
        submit_proof v s session_id player proof public_inputs =
          .ok (s.setGame session_id { g with player2_verified := true })))) := by
  unfold submit_proof
  cases hg : s.games session_id with
  | none => exact Or.inl ⟨.GameNotFound, rfl⟩
  | some g =>
    dsimp only
    by_cases h1 : g.resolved = true
    · exact Or.inl ⟨.GameAlreadyResolved, by rw [if_pos h1]⟩
    rw [if_neg h1]
    by_cases h2 : player ≠ g.player1 ∧ player ≠ g.player2
    · exact Or.inl ⟨.NotPlayer, by rw [if_pos h2]⟩
    rw [if_neg h2]
    by_cases h3 : player = g.player1 ∧ g.player1_verified = true
    · exact Or.inl ⟨.AlreadyVerified, by rw [if_pos h3]⟩
    rw [if_neg h3]
    by_cases h4 : player = g.player2 ∧ g.player2_verified = true
    · exact Or.inl ⟨.AlreadyVerified, by rw [if_pos h4]⟩
    rw [if_neg h4]
    by_cases h5 : public_inputs ≠ g.target_public_inputs
    · exact Or.inl ⟨.PublicInputMismatch, by rw [if_pos h5]⟩
    rw [if_neg h5]
    by_cases h6 : v proof public_inputs = false
    · exact Or.inr (Or.inl (by rw [if_pos h6]))
    rw [if_neg h6]
    refine Or.inr (Or.inr ⟨g, rfl, Bool.not_eq_true _ ▸ h1, ?_⟩)
    by_cases hp1 : player = g.player1
    · refine Or.inl ⟨hp1, ?_, by rw [if_pos hp1]⟩
      cases hf : g.player1_verified with
      | false => rfl
      | true => exact absurd ⟨hp1, hf⟩ h3
    · have hp2 : player = g.player2 := by
        rcases not_and_or.mp h2 with h | h
        · exact absurd (not_not.mp h) hp1
        · exact not_not.mp h
      refine Or.inr ⟨hp1, hp2, ?_, by rw [if_neg hp1]⟩
      cases hf : g.player2_verified with
      | false => rfl
      | true => exact absurd ⟨hp2, hf⟩ h4

/-- Exhaustive case analysis of `resolve_game`: an error return leaves
storage untouched, the idempotent branch returns the stored state with no
hub call, and a fresh resolution only sets the `resolved` flag. -/
theorem resolve_game_cases (s : ContractState) (session_id : Nat) :
    (∃ e, resolve_game s session_id = .err e s) ∨
    (∃ g o, s.games session_id = some g ∧ g.resolved = true ∧
      resolve_game s session_id = .ok o s []) ∨
    (∃ g, s.games session_id = some g ∧ g.resolved = false ∧
      (g.player1_verified = true ∨ g.player2_verified = true) ∧
      resolve_game s session_id =
        .ok (outcomeOf g.player1_verified g.player2_verified)
          (s.setGame session_id { g with resolved := true })
          [.endGame session_id
            (player1WonOf (outcomeOf g.player1_verified g.player2_verified))]) := by
  unfold resolve_game
  cases hg : s.games session_id with
  | none => exact Or.inl ⟨.GameNotFound, rfl⟩
  | some g =>
    dsimp only
    by_cases h1 : g.resolved = true
    · exact Or.inr (Or.inl ⟨g, _, rfl, h1, by rw [if_pos h1]⟩)
    rw [if_neg h1]
    by_cases h2 : g.player1_verified = false ∧ g.player2_verified = false
    · exact Or.inl ⟨.NeitherPlayerSubmitted, by rw [if_pos h2]⟩
    rw [if_neg h2]
    refine Or.inr (Or.inr ⟨g, rfl, Bool.not_eq_true _ ▸ h1, ?_, rfl⟩)
    rcases not_and_or.mp h2 with h | h
    · exact Or.inl (Bool.not_eq_false _ ▸ h)
    · exact Or.inr (Bool.not_eq_false _ ▸ h)

/-- Exhaustive case analysis of one transaction's effect on one storage
slot: either it is untouched, or a `start` on that very id stored a
fresh record, or (a non-start op) mutated the stored record by setting
flags only, monotonically, with `resolved` only set alongside a verified
flag. -/
theorem applyOp_games_cases (k : ByteStr → ByteStr) (v : ByteStr → ByteStr → Bool)
    (s : ContractState) (op : Op) (j : Nat) :
    (applyOp k v s op).games j = s.games j ∨
    (∃ p1 p2 a b, op = .start j p1 p2 a b ∧ p1 ≠ p2 ∧
      (applyOp k v s op).games j = some
        { player1 := p1, player2 := p2, player1_points := a,
          player2_points := b,
          target_public_inputs := k (u32_be j ++ p1 ++ p2),
          player1_verified := false, player2_verified := false,
          resolved := false }) ∨
    (op.isStart = false ∧ ∃ g g', s.games j = some g ∧
      (applyOp k v s op).games j = some g' ∧
      g'.player1 = g.player1 ∧ g'.player2 = g.player2 ∧
      g'.target_public_inputs = g.target_public_inputs ∧
      (g.player1_verified = true → g'.player1_verified = true) ∧
      (g.player2_verified = true → g'.player2_verified = true) ∧
      (g.resolved = true → g'.resolved = true) ∧
      (g'.resolved = true →
        g.resolved = true ∨ g'.player1_verified = true ∨
        g'.player2_verified = true)) := by
  cases op with
  | start sid p1 p2 a b =>
    simp only [applyOp, start_game]
    by_cases hp : p1 = p2
    · rw [if_pos hp]
      exact Or.inl rfl
    · rw [if_neg hp]
      dsimp only
      rw [setGame_games]
      by_cases hj : j = sid
      · subst hj
        exact Or.inr (Or.inl ⟨p1, p2, a, b, rfl, hp, by rw [if_pos rfl]⟩)
      · rw [if_neg hj]
        exact Or.inl rfl
  | submit sid p proof pi =>
    simp only [applyOp]
    rcases submit_proof_cases v s sid p proof pi with ⟨e, he⟩ | he |
      ⟨g, hg, hres, ⟨hp, hf, he⟩ | ⟨hp1, hp, hf, he⟩⟩
    · rw [he]
      exact Or.inl rfl
    · rw [he]
      exact Or.inl rfl
    · rw [he]
      dsimp only
      rw [setGame_games]
      by_cases hj : j = sid
      · subst hj
        rw [if_pos rfl]
        refine Or.inr (Or.inr ⟨rfl, g, _, hg, rfl, rfl, rfl, rfl, ?_, ?_, ?_, ?_⟩) <;>
          intro h <;> simp_all
      · rw [if_neg hj]
        exact Or.inl rfl
    · rw [he]
      dsimp only
      rw [setGame_games]
      by_cases hj : j = sid
      · subst hj
        rw [if_pos rfl]
        refine Or.inr (Or.inr ⟨rfl, g, _, hg, rfl, rfl, rfl, rfl, ?_, ?_, ?_, ?_⟩) <;>
          intro h <;> simp_all
      · rw [if_neg hj]
        exact Or.inl rfl
  | resolve sid =>
    simp only [applyOp]
    rcases resolve_game_cases s sid with ⟨e, he⟩ | ⟨g, o, hg, hres, he⟩ |
      ⟨g, hg, hres, hver, he⟩
    · rw [he]
      exact Or.inl rfl
    · rw [he]
      exact Or.inl rfl
    · rw [he]
      dsimp only
      rw [setGame_games]
      by_cases hj : j = sid
      · subst hj
        rw [if_pos rfl]
        refine Or.inr (Or.inr ⟨rfl, g, _, hg, rfl, rfl, rfl, rfl, ?_, ?_, ?_, ?_⟩) <;>
          intro h <;> simp_all
      · rw [if_neg hj]
        exact Or.inl rfl
  | getGame sid => exact Or.inl rfl
  | getTarget sid => exact Or.inl rfl

/-- Running any sequence of non-`start` operations keeps a stored record
present, keeps its parties and commitment, and only ever raises its
verified and resolved flags. -/
theorem runOps_preserve (k : ByteStr → ByteStr) (v : ByteStr → ByteStr → Bool)
    (ops : List Op) (hops : ∀ op ∈ ops, op.isStart = false)
    (s : ContractState) (j : Nat) (g : Game) (hg : s.games j = some g) :
    ∃ g', (runOps k v s ops).games j = some g' ∧
      g'.player1 = g.player1 ∧ g'.player2 = g.player2 ∧
      g'.target_public_inputs = g.target_public_inputs ∧
      (g.player1_verified = true → g'.player1_verified = true) ∧
      (g.player2_verified = true → g'.player2_verified = true) ∧
      (g.resolved = true → g'.resolved = true) := by
  induction ops generalizing s g with
  | nil => exact ⟨g, hg, rfl, rfl, rfl, fun h => h, fun h => h, fun h => h⟩
  | cons op ops ih =>
    have hop : op.isStart = false := hops op (List.mem_cons_self op ops)
    have hops' : ∀ o ∈ ops, o.isStart = false :=
      fun o ho => hops o (List.mem_cons_of_mem op ho)
    rcases applyOp_games_cases k v s op j with h | ⟨p1, p2, a, b, hstart, _, _⟩ |
      ⟨_, g0, g1, hg0, hg1, e1, e2, e3, m1, m2, m3, _⟩
    · obtain ⟨g', h1, h2⟩ := ih hops' (applyOp k v s op) g (h.trans hg)
      exact ⟨g', h1, h2⟩
    · rw [hstart] at hop
      exact absurd hop (by simp [Op.isStart])
    · rw [hg0] at hg
      injection hg with hgg
      subst hgg
      obtain ⟨g', h1, e1', e2', e3', m1', m2', m3'⟩ :=
        ih hops' (applyOp k v s op) g1 hg1
      exact ⟨g', h1, e1'.trans e1, e2'.trans e2, e3'.trans e3,
        fun h => m1' (m1 h), fun h => m2' (m2 h), fun h => m3' (m3 h)⟩

/-- One transaction preserves the `GoodState` invariant. -/
theorem applyOp_good (k : ByteStr → ByteStr) (v : ByteStr → ByteStr → Bool)
    (s : ContractState) (op : Op) (hs : GoodState s) :
    GoodState (applyOp k v s op) := by
  intro j g' hg'
  rcases applyOp_games_cases k v s op j with h | ⟨p1, p2, a, b, _, hpne, h⟩ |
    ⟨_, g0, g1, hg0, hg1, e1, e2, _, m1, m2, _, m4⟩
  · exact hs j g' (h ▸ hg')
  · rw [h] at hg'
    injection hg' with hgg
    subst hgg
    exact ⟨hpne, by intro hr; cases hr⟩
  · rw [hg1] at hg'
    injection hg' with hgg
    subst hgg
    obtain ⟨hne0, hr0⟩ := hs j g0 hg0
    refine ⟨e1 ▸ e2 ▸ hne0, fun hr => ?_⟩
    rcases m4 hr with h0 | h1 | h2
    · rcases hr0 h0 with hv | hv
      · exact Or.inl (m1 hv)
      · exact Or.inr (m2 hv)
    · exact Or.inl h1
    · exact Or.inr h2

/-- Any operation sequence preserves the `GoodState` invariant. -/
theorem runOps_good (k : ByteStr → ByteStr) (v : ByteStr → ByteStr → Bool)
    (ops : List Op) (s : ContractState) (hs : GoodState s) :
    GoodState (runOps k v s ops) := by
  induction ops generalizing s with
  | nil => exact hs
  | cons op ops ih => exact ih (applyOp k v s op) (applyOp_good k v s op hs)

/-! Claims. -/

/-- C1: after any successful `resolve_game` call, calling `resolve_game`
again on the resulting state returns the very same `Outcome`, leaves the
state unchanged, and emits no GameHub `end_game` call — the external
report happens only on the first call. -/
theorem resolve_game_idempotent (s : ContractState) (session_id : Nat)
    (o : Outcome) (s' : ContractState) (calls : List HubCall)
    (h : resolve_game s session_id = .ok o s' calls) :
    resolve_game s' session_id = .ok o s' [] := by
  rcases resolve_game_cases s session_id with ⟨e, he⟩ | ⟨g, o', hg, hres, he⟩ |
    ⟨g, hg, hres, hver, he⟩
  · rw [he] at h
    exact absurd h (by intro hc; cases hc)
  · rw [he] at h
    injection h with h1 h2 h3
    subst h1
    subst h2
    exact he
  · rw [he] at h
    injection h with h1 h2 h3
    subst h1; subst h2
    unfold resolve_game
    rw [setGame_games, if_pos rfl]
    dsimp only
    rw [if_pos rfl]

/-- C2 counterexample: on an existing unresolved session where neither
player has verified, `resolve_game` does not produce the `NeitherWon`
outcome the claim's table demands — it returns the
`NeitherPlayerSubmitted` error, reports nothing to the hub, and leaves
the state unchanged. -/
theorem resolve_game_neither_counterexample :
    resolve_game sNeither 0 = .err .NeitherPlayerSubmitted sNeither := rfl

/-- C2 (amended): for every existing session with `resolved = false`,
`resolve_game` follows the binary-verification table on the three rows
with at least one verified flag (only player 1 ⇒ `Player1Won` reported
`player1_won = true`; only player 2 ⇒ `Player2Won` reported `false`;
both ⇒ `BothWon` reported `true`), while the neither-verified row
returns the `NeitherPlayerSubmitted` error and reports nothing. -/
theorem resolve_game_outcome_table (s : ContractState) (session_id : Nat)
    (g : Game) (hg : s.games session_id = some g)
    (hres : g.resolved = false) :
    (g.player1_verified = true → g.player2_verified = false →
      resolve_game s session_id = .ok .Player1Won
        (s.setGame session_id { g with resolved := true })
        [.endGame session_id true]) ∧
    (g.player1_verified = false → g.player2_verified = true →
      resolve_game s session_id = .ok .Player2Won
        (s.setGame session_id { g with resolved := true })
        [.endGame session_id false]) ∧
    (g.player1_verified = true → g.player2_verified = true →
      resolve_game s session_id = .ok .BothWon
        (s.setGame session_id { g with resolved := true })
        [.endGame session_id true]) ∧
    (g.player1_verified = false → g.player2_verified = false →
      resolve_game s session_id = .err .NeitherPlayerSubmitted s) := by
  unfold resolve_game
  rw [hg]
  dsimp only
  refine ⟨?_, ?_, ?_, ?_⟩ <;> intro h1 h2 <;>
    simp [hres, h1, h2, outcomeOf, player1WonOf]

/-- C2 witness: the amended table evaluated on a concrete session in
which only player 1 has verified. -/
theorem resolve_game_outcome_table_witness :
    resolve_game sP1 0 = .ok .Player1Won
      (sP1.setGame 0 { gP1 with resolved := true }) [.endGame 0 true] :=
  (resolve_game_outcome_table sP1 0 gP1 rfl rfl).1 rfl rfl

/-- C1 witness: a concrete first resolution (only player 1 verified)
followed by a second call that returns the same outcome with no hub
call. -/
theorem resolve_game_idempotent_witness :
    resolve_game sP1 0 = .ok .Player1Won
      (sP1.setGame 0 { gP1 with resolved := true }) [.endGame 0 true] ∧
    resolve_game (sP1.setGame 0 { gP1 with resolved := true }) 0 =
      .ok .Player1Won (sP1.setGame 0 { gP1 with resolved := true }) [] :=
  ⟨rfl, resolve_game_idempotent sP1 0 _ _ _ rfl⟩

/-- C3: whenever the Verifier Gateway traps during `submit_proof`, the
storage state carried at the trap is exactly the pre-call state (no
write precedes the verifier call, and the host rolls the transaction
back), the session record is unchanged, it is still unresolved, and the
submitting party's verified flag was and remains false. -/
theorem submit_proof_verifier_abort_rollback (v : ByteStr → ByteStr → Bool)
    (s : ContractState) (session_id : Nat) (player : Address)
    (proof public_inputs : ByteStr) (s' : ContractState)
    (h : submit_proof v s session_id player proof public_inputs = .trap s') :
    s' = s ∧ ∃ g, s.games session_id = some g ∧ g.resolved = false ∧
      ((player = g.player1 ∧ g.player1_verified = false) ∨
       (player ≠ g.player1 ∧ player = g.player2 ∧
        g.player2_verified = false)) := by
  unfold submit_proof at h
  cases hg : s.games session_id with
  | none =>
    rw [hg] at h
    exact absurd h (by intro hc; cases hc)
  | some g =>
    rw [hg] at h
    dsimp only at h
    by_cases h1 : g.resolved = true
    · rw [if_pos h1] at h; cases h
    rw [if_neg h1] at h
    by_cases h2 : player ≠ g.player1 ∧ player ≠ g.player2
    · rw [if_pos h2] at h; cases h
    rw [if_neg h2] at h
    by_cases h3 : player = g.player1 ∧ g.player1_verified = true
    · rw [if_pos h3] at h; cases h
    rw [if_neg h3] at h
    by_cases h4 : player = g.player2 ∧ g.player2_verified = true
    · rw [if_pos h4] at h; cases h
    rw [if_neg h4] at h
    by_cases h5 : public_inputs ≠ g.target_public_inputs
    · rw [if_pos h5] at h; cases h
    rw [if_neg h5] at h
    by_cases h6 : v proof public_inputs = false
    · rw [if_pos h6] at h
      injection h with hs
      refine ⟨hs.symm, g, rfl, Bool.not_eq_true _ ▸ h1, ?_⟩
      by_cases hp1 : player = g.player1
      · refine Or.inl ⟨hp1, ?_⟩
        cases hf : g.player1_verified with
        | false => rfl
        | true => exact absurd ⟨hp1, hf⟩ h3
      · have hp2 : player = g.player2 := by
          rcases not_and_or.mp h2 with hx | hx
          · exact absurd (not_not.mp hx) hp1
          · exact not_not.mp hx
        refine Or.inr ⟨hp1, hp2, ?_⟩
        cases hf : g.player2_verified with
        | false => rfl
        | true => exact absurd ⟨hp2, hf⟩ h4
    · rw [if_neg h6] at h
      cases h

/-- C3 witness: a trapping verifier on a concrete fresh session leaves
the state unchanged with the party's flag still false. -/
theorem submit_proof_verifier_abort_rollback_witness :
    submit_proof verReject sNeither 0 addrA [1] pi0 = .trap sNeither ∧
    (sNeither = sNeither ∧ ∃ g, sNeither.games 0 = some g ∧
      g.resolved = false ∧
      ((addrA = g.player1 ∧ g.player1_verified = false) ∨
       (addrA ≠ g.player1 ∧ addrA = g.player2 ∧
        g.player2_verified = false))) :=
  ⟨rfl, submit_proof_verifier_abort_rollback verReject sNeither 0 addrA
    [1] pi0 sNeither rfl⟩

/-- C4: on an existing unresolved session, a registered party whose flag
is still false receives `PublicInputMismatch` whenever the submitted
public inputs differ in any way (any byte, or the length) from the
stored commitment, for every possible proof byte content, and the
operation returns with storage untouched. -/
theorem submit_proof_public_input_mismatch (v : ByteStr → ByteStr → Bool)
    (s : ContractState) (session_id : Nat) (player : Address)
    (proof public_inputs : ByteStr) (g : Game)
    (hg : s.games session_id = some g) (hres : g.resolved = false)
    (hparty : player = g.player1 ∨ player = g.player2)
    (hv1 : player = g.player1 → g.player1_verified = false)
    (hv2 : player = g.player2 → g.player2_verified = false)
    (hpi : public_inputs ≠ g.target_public_inputs) :
    submit_proof v s session_id player proof public_inputs =
      .err .PublicInputMismatch s := by
  unfold submit_proof
  rw [hg]
  dsimp only
  have h2 : ¬(player ≠ g.player1 ∧ player ≠ g.player2) := by tauto
  have h3 : ¬(player = g.player1 ∧ g.player1_verified = true) := by
    rintro ⟨hp, hf⟩
    rw [hv1 hp] at hf
    cases hf
  have h4 : ¬(player = g.player2 ∧ g.player2_verified = true) := by
    rintro ⟨hp, hf⟩
    rw [hv2 hp] at hf
    cases hf
  rw [if_neg (by simp [hres]), if_neg h2, if_neg h3, if_neg h4, if_pos hpi]

/-- C4 witness: a one-byte public input (also of the wrong length) on a
concrete fresh session yields `PublicInputMismatch` for an accepting
verifier and arbitrary proof bytes. -/
theorem submit_proof_public_input_mismatch_witness :
    (sNeither.games 0 = some baseGame ∧ baseGame.resolved = false ∧
      (addrA = baseGame.player1 ∨ addrA = baseGame.player2) ∧
      ([0] : ByteStr) ≠ baseGame.target_public_inputs) ∧
    submit_proof verAccept sNeither 0 addrA [9] [0] =
      .err .PublicInputMismatch sNeither :=
  ⟨⟨rfl, rfl, Or.inl rfl, by decide⟩,
   submit_proof_public_input_mismatch verAccept sNeither 0 addrA [9] [0]
     baseGame rfl rfl (Or.inl rfl) (fun _ => rfl) (fun _ => rfl)
     (by decide)⟩

/-- C5 counterexample: a session whose record is resolved becomes
unresolved again when `start_game` is called with the same session id —
`start_game` overwrites unconditionally (id collisions overwrite), so
the claimed monotonicity fails once `start_game` is among the permitted
subsequent operations. -/
theorem resolved_reset_by_start_counterexample :
    sResolvedP1.games 0 = some gResolvedP1 ∧ gResolvedP1.resolved = true ∧
    (runOps keccak0 verAccept sResolvedP1
      [.start 0 addrA addrB 1 2]).games 0 = some gFreshAB ∧
    gFreshAB.resolved = false := by
  refine ⟨rfl, rfl, ?_, rfl⟩
  decide

/-- C5 (amended): once a session record is resolved, it stays resolved
under any subsequent sequence of `submit_proof`, `resolve_game` and
query operations; only a colliding `start_game` on the same id can
replace the record with a fresh unresolved one. -/
theorem resolved_monotone (k : ByteStr → ByteStr)
    (v : ByteStr → ByteStr → Bool) (s : ContractState) (ops : List Op)
    (hops : ∀ op ∈ ops, op.isStart = false) (session_id : Nat) (g : Game)
    (hg : s.games session_id = some g) (hres : g.resolved = true) :
    ∃ g', (runOps k v s ops).games session_id = some g' ∧
      g'.resolved = true := by
  obtain ⟨g', h1, _, _, _, _, _, h7⟩ :=
    runOps_preserve k v ops hops s session_id g hg
  exact ⟨g', h1, h7 hres⟩

/-- C5 witness: a concrete resolved session stays resolved across a
concrete start-free operation sequence. -/
theorem resolved_monotone_witness :
    (∀ op ∈ opsNoStart, Op.isStart op = false) ∧
    sResolvedP1.games 0 = some gResolvedP1 ∧ gResolvedP1.resolved = true ∧
    ∃ g', (runOps keccak0 verAccept sResolvedP1 opsNoStart).games 0 =
        some g' ∧ g'.resolved = true :=
  ⟨by decide, rfl, rfl,
   resolved_monotone keccak0 verAccept sResolvedP1 opsNoStart (by decide) 0
     gResolvedP1 rfl rfl⟩

/-- C6: the stored commitment read after creation is never changed by
any number of subsequent `submit_proof`, `resolve_game`, `get_game` and
`get_target` operations, and `get_target` keeps answering exactly the
creation-time value. -/
theorem commitment_immutable (k : ByteStr → ByteStr)
    (v : ByteStr → ByteStr → Bool) (s : ContractState) (ops : List Op)
    (hops : ∀ op ∈ ops, op.isStart = false) (session_id : Nat) (g : Game)
    (hg : s.games session_id = some g) :
    ∃ g', (runOps k v s ops).games session_id = some g' ∧
      g'.target_public_inputs = g.target_public_inputs ∧
      get_target (runOps k v s ops) session_id =
        .ok g.target_public_inputs := by
  obtain ⟨g', h1, _, _, h4, _, _, _⟩ :=
    runOps_preserve k v ops hops s session_id g hg
  refine ⟨g', h1, h4, ?_⟩
  unfold get_target
  rw [h1]
  dsimp only
  rw [h4]

/-- C6 witness: the commitment of a concrete session survives a concrete
submit/resolve/query sequence. -/
theorem commitment_immutable_witness :
    (∀ op ∈ opsNoStart, Op.isStart op = false) ∧
    sNeither.games 0 = some baseGame ∧
    ∃ g', (runOps keccak0 verAccept sNeither opsNoStart).games 0 = some g' ∧
      g'.target_public_inputs = baseGame.target_public_inputs ∧
      get_target (runOps keccak0 verAccept sNeither opsNoStart) 0 =
        .ok baseGame.target_public_inputs :=
  ⟨by decide, rfl,
   commitment_immutable keccak0 verAccept sNeither opsNoStart (by decide) 0
     baseGame rfl⟩

/-- C7: resolving an existing unresolved session with both verified
flags false returns the `NeitherPlayerSubmitted` error with storage
untouched (so `resolved` is not set and no no-winner outcome is
produced); and in every state reachable from the empty state, no stored
session is resolved with both verified flags false. -/
theorem resolve_requires_submission (k : ByteStr → ByteStr)
    (v : ByteStr → ByteStr → Bool) :
    (∀ s session_id g, s.games session_id = some g → g.resolved = false →
      g.player1_verified = false → g.player2_verified = false →
      resolve_game s session_id = .err .NeitherPlayerSubmitted s) ∧
    (∀ ops session_id g,
      (runOps k v emptyState ops).games session_id = some g →
      g.resolved = true →
      g.player1_verified = true ∨ g.player2_verified = true) := by
  constructor
  · intro s session_id g hg h1 h2 h3
    unfold resolve_game
    rw [hg]
    dsimp only
    rw [if_neg (by simp [h1]), if_pos ⟨h2, h3⟩]
  · intro ops session_id g hg hres
    exact (runOps_good k v ops emptyState emptyState_good session_id g
      hg).2 hres

/-- C7 witness: the error on a concrete fresh session, and a concrete
reachable resolved session that indeed has a verified flag set. -/
theorem resolve_requires_submission_witness :
    (sNeither.games 0 = some baseGame ∧
      resolve_game sNeither 0 = .err .NeitherPlayerSubmitted sNeither) ∧
    ((runOps keccak0 verAccept emptyState opsW7).games 0 = some gW7 ∧
      gW7.resolved = true ∧
      (gW7.player1_verified = true ∨ gW7.player2_verified = true)) :=
  ⟨⟨rfl, (resolve_requires_submission keccak0 verAccept).1 sNeither 0
      baseGame rfl rfl rfl rfl⟩,
   ⟨by decide, rfl, (resolve_requires_submission keccak0 verAccept).2 opsW7
      0 gW7 (by decide) rfl⟩⟩

/-- C8 counterexample: player 1's verified flag, set by a successful
submission, is reset to false by a subsequent `start_game` collision on
the same session id; and after resolution a repeated submission by the
already-verified party returns `GameAlreadyResolved`, not
`AlreadyVerified` — both refuting the claim as stated. -/
theorem verified_flag_reset_counterexample :
    ((runOps keccak0 verAccept emptyState opsW8a).games 0).map
      Game.player1_verified = some true ∧
    ((runOps keccak0 verAccept emptyState opsW8b).games 0).map
      Game.player1_verified = some false ∧
    submit_proof verAccept sResolvedP1 0 addrA [1] pi0 =
      .err .GameAlreadyResolved sResolvedP1 :=
  ⟨by decide, by decide, rfl⟩

/-- C8 (amended): while the session record is unresolved and still holds
a party's verified flag, every further `submit_proof` by that party
returns `AlreadyVerified` with storage untouched; and no sequence of
`submit_proof` / `resolve_game` / query operations ever resets a
verified flag (only a colliding `start_game` overwrite can). -/
theorem single_submission_per_party (k : ByteStr → ByteStr)
    (v : ByteStr → ByteStr → Bool) :
    (∀ s session_id player proof public_inputs g,
      s.games session_id = some g → g.resolved = false →
      ((player = g.player1 ∧ g.player1_verified = true) ∨
       (player = g.player2 ∧ g.player2_verified = true)) →
      submit_proof v s session_id player proof public_inputs =
        .err .AlreadyVerified s) ∧
    (∀ s ops session_id g, (∀ op ∈ ops, Op.isStart op = false) →
      s.games session_id = some g →
      ∃ g', (runOps k v s ops).games session_id = some g' ∧
        (g.player1_verified = true → g'.player1_verified = true) ∧
        (g.player2_verified = true → g'.player2_verified = true)) := by
  constructor
  · intro s session_id player proof public_inputs g hg hres hflag
    unfold submit_proof
    rw [hg]
    dsimp only
    have h2 : ¬(player ≠ g.player1 ∧ player ≠ g.player2) := by tauto
    rw [if_neg (by simp [hres]), if_neg h2]
    by_cases h3 : player = g.player1 ∧ g.player1_verified = true
    · rw [if_pos h3]
    · rw [if_neg h3]
      have h4 : player = g.player2 ∧ g.player2_verified = true := by tauto
      rw [if_pos h4]
  · intro s ops session_id g hops hg
    obtain ⟨g', h1, _, _, _, h5, h6, _⟩ :=
      runOps_preserve k v ops hops s session_id g hg
    exact ⟨g', h1, h5, h6⟩

/-- C8 witness: concrete duplicate submission rejected, and the flag
surviving a concrete start-free operation sequence. -/
theorem single_submission_per_party_witness :
    (sP1.games 0 = some gP1 ∧ gP1.resolved = false ∧
      (addrA = gP1.player1 ∧ gP1.player1_verified = true) ∧
      submit_proof verAccept sP1 0 addrA [1] pi0 =
        .err .AlreadyVerified sP1) ∧
    (∃ g', (runOps keccak0 verAccept sP1 opsNoStart).games 0 = some g' ∧
      (gP1.player1_verified = true → g'.player1_verified = true) ∧
      (gP1.player2_verified = true → g'.player2_verified = true)) :=
  ⟨⟨rfl, rfl, ⟨rfl, rfl⟩,
    (single_submission_per_party keccak0 verAccept).1 sP1 0 addrA [1] pi0
      gP1 rfl rfl (Or.inl ⟨rfl, rfl⟩)⟩,
   (single_submission_per_party keccak0 verAccept).2 sP1 opsNoStart 0 gP1
     (by decide) rfl⟩

/-- C9: a successful `start_game` registers the session with the hub and
stores as commitment exactly the hash of the 4-byte big-endian session
id concatenated with player 1's and then player 2's identity bytes, with
no secret salt; `get_target` returns exactly this value. -/
theorem start_game_commitment (k : ByteStr → ByteStr) (s : ContractState)
    (session_id : Nat) (player1 player2 : Address) (a b : Int)
    (hne : player1 ≠ player2) :
    ∃ s' g, start_game k s session_id player1 player2 a b =
        .ok s' [.startGame session_id player1 player2 a b] ∧
      s'.games session_id = some g ∧
      g.target_public_inputs = k (u32_be session_id ++ player1 ++ player2) ∧
      get_target s' session_id =
        .ok (k (u32_be session_id ++ player1 ++ player2)) := by
  unfold start_game
  rw [if_neg hne]
  refine ⟨_,
    { player1 := player1, player2 := player2, player1_points := a,
      player2_points := b,
      target_public_inputs := k (u32_be session_id ++ player1 ++ player2),
      player1_verified := false, player2_verified := false,
      resolved := false }, rfl, ?_, rfl, ?_⟩
  · rw [setGame_games, if_pos rfl]
  · simp [get_target, ContractState.setGame]

/-- C9 witness: the commitment formula evaluated at concrete parties. -/
theorem start_game_commitment_witness :
    addrA ≠ addrB ∧
    ∃ s' g, start_game keccak0 emptyState 0 addrA addrB 1 2 =
        .ok s' [.startGame 0 addrA addrB 1 2] ∧
      s'.games 0 = some g ∧
      g.target_public_inputs = keccak0 (u32_be 0 ++ addrA ++ addrB) ∧
      get_target s' 0 = .ok (keccak0 (u32_be 0 ++ addrA ++ addrB)) :=
  ⟨by decide,
   start_game_commitment keccak0 emptyState 0 addrA addrB 1 2 (by decide)⟩

/-- C10: `start_game` with the same identity on both sides always hard
aborts with the pre-call state and zero hub calls (the abort precedes
any state mutation or external call); consequently, in every state
reachable from the empty state, every stored session has distinct
parties. -/
theorem start_game_equal_parties_abort (k : ByteStr → ByteStr)
    (v : ByteStr → ByteStr → Bool) :
    (∀ s session_id p a b,
      start_game k s session_id p p a b = .trap s []) ∧
    (∀ ops session_id g,
      (runOps k v emptyState ops).games session_id = some g →
      g.player1 ≠ g.player2) := by
  constructor
  · intro s session_id p a b
    unfold start_game
    rw [if_pos rfl]
  · intro ops session_id g hg
    exact (runOps_good k v ops emptyState emptyState_good session_id g
      hg).1

/-- C10 witness: a concrete equal-parties call aborts on the empty
state, and a concrete reachable session has distinct parties. -/
theorem start_game_equal_parties_abort_witness :
    start_game keccak0 emptyState 0 addrA addrA 1 1 =
      .trap emptyState [] ∧
    ((runOps keccak0 verAccept emptyState
        [Op.start 0 addrA addrB 1 2]).games 0 = some gFreshAB ∧
      gFreshAB.player1 ≠ gFreshAB.player2) :=
  ⟨(start_game_equal_parties_abort keccak0 verAccept).1 emptyState 0 addrA
      1 1,
   by decide,
   (start_game_equal_parties_abort keccak0 verAccept).2
     [Op.start 0 addrA addrB 1 2] 0 gFreshAB (by decide)⟩

end AetherGrid
